import Mathlib

/-!
Verification of the SentinelAI threat normalization / ranking pipeline and the
AI-analysis orchestration layer against its specification.

The TypeScript sources are shallowly embedded: pure functions become Lean
functions, the React component state machines become explicit step functions
over state records, and the effectful boundaries (HTTP fetch, `crypto.randomUUID`,
`new Date()`, `Date` text parsing, JSON decoding of untyped replies) become
explicit parameters or small outcome datatypes.  JavaScript numbers appearing
in the code are embedded as `Int` / `Rat`; machine-level floating point plays
no role in any claim considered here.
-/

namespace SentinelAI

/-! ## Severity levels (`src/utils/formatters.ts`) -/
/-- The five canonical severity levels, `SeverityLevel` in `formatters.ts`. -/
inductive SeverityLevel where
  | Extreme
  | Severe
  | Moderate
  | Minor
  | Unknown
  deriving DecidableEq, Repr

/-- Severity rank used by the aggregator's comparator in `useThreats.ts`:
`{ Extreme: 0, Severe: 1, Moderate: 2, Minor: 3, Unknown: 4 }`. -/
def severityRank : SeverityLevel → Int
  | .Extreme => 0
  | .Severe => 1
  | .Moderate => 2
  | .Minor => 3
  | .Unknown => 4

/-- `magnitudeToSeverity` from `formatters.ts`: fixed breakpoints on the
earthquake magnitude.  The JS `number` argument is embedded as `Rat`. -/
def magnitudeToSeverity (magnitude : ℚ) : SeverityLevel :=
  if magnitude ≥ 7 then .Extreme
  else if magnitude ≥ 11/2 then .Severe
  else if magnitude ≥ 4 then .Moderate
  else if magnitude ≥ 5/2 then .Minor
  else .Unknown

/-! ## The Threat record (`src/services/nwsService.ts`) -/
/-- Provenance tag, `'NWS' | 'USGS'`. -/
inductive Source where
  | NWS
  | USGS
  deriving DecidableEq, Repr

/-- `effective` / `expires` are `string | number` in the source: either an
absolute epoch instant or date text. -/
inductive TimeValue where
  | num (n : Int)
  | text (s : String)
  deriving DecidableEq, Repr

/-- A JSON-ish coordinate tree: GeoJSON `coordinates` values are arbitrarily
nested arrays of numbers, and the extractor treats them as untyped (`any`). -/
inductive Coord where
  | num (q : ℚ)
  | arr (l : List Coord)

/-- The canonical unified `Threat` entity from `nwsService.ts`. -/
structure Threat where
  id : String
  source : Source
  type : String
  severity : SeverityLevel
  headline : String
  description : String
  areaDesc : String
  effective : TimeValue
  expires : Option TimeValue
  coordinates : Option (Coord × Coord) := none
  magnitude : Option ℚ := none

/-! ## The aggregator's sort (`useThreats.ts`)

`fetchAll` concatenates the two adapter results and calls
`Array.prototype.sort` (stable per ES2019) with the comparator

```
if (aOrder !== bOrder) return aOrder - bOrder
const aTime = typeof a.effective === 'number' ? a.effective : new Date(a.effective).getTime()
...
return bTime - aTime
```

`new Date(s).getTime()` is an external parsing routine; it is embedded as an
abstract parameter `pd : String → Int` giving the epoch value of date text. -/
/-- The epoch normalization used by the comparator: numeric `effective` values
are used as-is, text is parsed to an epoch by `pd`. -/
def effTime (pd : String → Int) : TimeValue → Int
  | .num n => n
  | .text s => pd s

/-- The comparator body from `useThreats.ts` (`a` before `b` when negative). -/
def threatCmp (pd : String → Int) (a b : Threat) : Int :=
  if severityRank a.severity ≠ severityRank b.severity then
    severityRank a.severity - severityRank b.severity
  else
    effTime pd b.effective - effTime pd a.effective

/-- The total preorder induced by the comparator: `a` may precede `b`. -/
def threatLe (pd : String → Int) (a b : Threat) : Prop :=
  threatCmp pd a b ≤ 0

instance (pd : String → Int) : DecidableRel (threatLe pd) := fun a b =>
  inferInstanceAs (Decidable (threatCmp pd a b ≤ 0))

/-- The compound sort key: severity rank (ascending) then effective epoch.
Two threats are tied under the comparator exactly when their keys agree. -/
def threatKey (pd : String → Int) (t : Threat) : Int × Int :=
  (severityRank t.severity, effTime pd t.effective)

/-- The spec's wording of the order (§4.2): primary key severity rank
ascending, secondary key — only on rank ties — most recent `effective`
epoch first. -/
def specLe (pd : String → Int) (a b : Threat) : Prop :=
  severityRank a.severity < severityRank b.severity ∨
    (severityRank a.severity = severityRank b.severity ∧
      effTime pd b.effective ≤ effTime pd a.effective)

/-- `refresh` merge-and-sort step of `fetchAll`: concatenate the two adapter
results and stable-sort with the comparator. -/
def refreshThreats (pd : String → Int) (nws usgs : List Threat) : List Threat :=
  List.insertionSort (threatLe pd) (nws ++ usgs)

instance (pd : String → Int) : IsTotal Threat (threatLe pd) := by
  constructor
  intro a b
  unfold threatLe threatCmp
  split_ifs <;> omega

instance (pd : String → Int) : IsTrans Threat (threatLe pd) := by
  constructor
  intro a b c hab hbc
  unfold threatLe threatCmp at hab hbc ⊢
  split_ifs at hab hbc ⊢ <;> omega

/-! ## The weather-feed adapter (`src/services/nwsService.ts`)

`fetchNWSAlerts` wraps one `axios.get` plus a mapping step in a single
`try`/`catch` that returns `[]`.  The HTTP layer is embedded as a
`FetchOutcome` value (axios rejects on network errors, non-2xx statuses and
invalid JSON alike, all of which hit the `catch`); `crypto.randomUUID()` and
`new Date().toISOString()` are embedded as the ambient `AdapterEnv`. -/
/-- Upstream payload of a feature's `properties`, every field optional. -/
structure NWSProps where
  event : Option String := none
  severity : Option String := none
  headline : Option String := none
  description : Option String := none
  areaDesc : Option String := none
  effective : Option String := none
  expires : Option String := none

/-- Upstream GeoJSON geometry, treated as untyped in the source. -/
structure NWSGeometry where
  type : Option String := none
  coordinates : Option Coord := none

/-- One upstream GeoJSON feature.  `properties` itself can be absent, in
which case the mapper's `p.event` access throws a `TypeError`. -/
structure NWSFeature where
  id : Option String := none
  properties : Option NWSProps := none
  geometry : Option NWSGeometry := none

/-- Upstream response body: `response.data?.features ?? []`. -/
structure NWSData where
  features : Option (List NWSFeature) := none

/-- Result of the `axios.get` call: any transport / status / JSON failure
rejects, otherwise a decoded body is available. -/
inductive FetchOutcome (α : Type) where
  | failure
  | success (data : α)

/-- Ambient effects of the adapter: fresh ids (`crypto.randomUUID()`, indexed
by feature position) and the current time text (`new Date().toISOString()`). -/
structure AdapterEnv where
  genId : Nat → String
  nowISO : String

/-- JS truthiness of the `geometry?.coordinates` value (`!geometry?.coordinates`):
absent and the number 0 are falsy, every array is truthy. -/
def jsTruthyCoord : Option Coord → Bool
  | none => false
  | some (.num q) => decide (q ≠ 0)
  | some (.arr _) => true

/-- JS optional indexing `c?.[i]`: indexing a non-array yields `undefined`. -/
def jsIndex : Coord → Nat → Option Coord
  | .num _, _ => none
  | .arr l, i => l.get? i

/-- `getCoordinatesFromGeometry` from `nwsService.ts`: extract `[lat, lng]`
from a Point / Polygon / MultiPolygon geometry, flipping the GeoJSON
`[lng, lat]` order; `null` on anything else. -/
def getCoordinatesFromGeometry (geometry : Option NWSGeometry) : Option (Coord × Coord) :=
  match geometry with
  | none => none
  | some g =>
    if jsTruthyCoord g.coordinates then
      match g.coordinates with
      | none => none
      | some c =>
        match g.type with
        | some "Point" =>
          -- Array.isArray(c) && c.length >= 2 ? [c[1], c[0]] : null
          match c with
          | .arr (lng :: lat :: _) => some (lat, lng)
          | _ => none
        | some "Polygon" =>
          -- const ring = c?.[0]; first point of the exterior ring
          match jsIndex c 0 with
          | some (.arr (p0 :: _)) =>
            match p0 with
            | .arr (lng :: lat :: _) => some (lat, lng)
            | _ => none
          | _ => none
        | some "MultiPolygon" =>
          -- const firstRing = c?.[0]?.[0]; firstPoint = firstRing[0]
          match (jsIndex c 0).bind (fun c0 => jsIndex c0 0) with
          | some (.arr l) =>
            match l.head? with
            | some (Coord.arr (lng :: lat :: _)) => some (lat, lng)
            | _ => none
          | _ => none
        | _ => none
    else none

/-- `normalizeSeverity` from `nwsService.ts`: the raw value may be absent at
runtime, hitting the `switch` default. -/
def normalizeSeverity : Option String → SeverityLevel
  | some "Extreme" => .Extreme
  | some "Severe" => .Severe
  | some "Moderate" => .Moderate
  | some "Minor" => .Minor
  | _ => .Unknown

/-- The per-feature mapping arrow of `fetchNWSAlerts`.  An absent
`properties` object makes the very first field access throw. -/
def mapFeature (env : AdapterEnv) (i : Nat) (f : NWSFeature) : Except String Threat :=
  match f.properties with
  | none => .error "TypeError: cannot read properties of undefined"
  | some p =>
    .ok
      { id := f.id.getD (env.genId i)
        source := .NWS
        type := p.event.getD "Weather Alert"
        severity := normalizeSeverity p.severity
        headline := p.headline.getD (p.event.getD "Weather Alert")
        description := p.description.getD "No description available."
        areaDesc := p.areaDesc.getD "Unknown area"
        effective := .text (p.effective.getD env.nowISO)
        expires := p.expires.map .text
        coordinates := getCoordinatesFromGeometry f.geometry
        magnitude := none }

/-- `.map` over the (already truncated) feature list, first thrown error
aborting the whole mapping. -/
def mapFeatures (env : AdapterEnv) : Nat → List NWSFeature → Except String (List Threat)
  | _, [] => .ok []
  | i, f :: fs =>
    match mapFeature env i f with
    | .error e => .error e
    | .ok t =>
      match mapFeatures env (i + 1) fs with
      | .error e => .error e
      | .ok ts => .ok (t :: ts)

/-- `fetchNWSAlerts`: `try { get; slice(0, 10); map } catch { return [] }`. -/
def fetchNWSAlerts (env : AdapterEnv) (resp : FetchOutcome NWSData) : List Threat :=
  match resp with
  | .failure => []
  | .success data =>
    match mapFeatures env 0 ((data.features.getD []).take 10) with
    | .ok ts => ts
    | .error _ => []

/-- The minimal upstream feature: `properties` present but every optional
field absent. -/
def minimalFeature : NWSFeature :=
  { id := none, properties := some {}, geometry := none }

/-! ## Drafting reply parser (`src/components/DraftControls.tsx`)

`parseAlerts` runs three case-insensitive regexes over the reply text:

```
SMS:\s*([\s\S]*?)(?=EMAIL:|$)   EMAIL:\s*([\s\S]*?)(?=VOICE:|$)   VOICE:\s*([\s\S]*?)$
```

Each regex matches at the first occurrence of its label; the lazy capture
stops at the first following stop-label occurrence (or the end of the input),
and the capture is `.trim()`ed.  Since the greedy `\s*` after the label only
consumes whitespace — which can contain no stop label — and the result is
trimmed anyway, each capture-and-trim equals the trim of the full text between
the label and the next stop-label occurrence.  Strings are embedded as
`List Char`; `/i` is case folding by `Char.toLower`. -/
/-- Case-insensitive character comparison used by the `/i` regex flag. -/
def ciEq (a b : Char) : Bool := a.toLower == b.toLower

/-- The label text of the SMS section regex. -/
def smsLabel : List Char := ['S', 'M', 'S', ':']

/-- The label text of the EMAIL section regex. -/
def emailLabel : List Char := ['E', 'M', 'A', 'I', 'L', ':']

/-- The label text of the VOICE section regex. -/
def voiceLabel : List Char := ['V', 'O', 'I', 'C', 'E', ':']

/-- Does `pat` occur (case-insensitively) as a prefix of `l`? -/
def matchesAt : List Char → List Char → Bool
  | [], _ => true
  | _ :: _, [] => false
  | p :: ps, c :: cs => ciEq p c && matchesAt ps cs

/-- Index of the first case-insensitive occurrence of `pat` in `l`. -/
def findCI (pat : List Char) : List Char → Option Nat
  | [] => if matchesAt pat [] then some 0 else none
  | c :: cs => if matchesAt pat (c :: cs) then some 0 else (findCI pat cs).map (· + 1)

/-- JS `String.prototype.trim`. -/
def trimChars (l : List Char) : List Char :=
  ((l.dropWhile Char.isWhitespace).reverse.dropWhile Char.isWhitespace).reverse

/-- Text between the first occurrence of `label` and the next occurrence of
`stop` (or the end), `none` when `label` does not occur: the unterminated
section semantics of `label:\s*([\s\S]*?)(?=stop|$)`, pre-trim. -/
def sectionUpTo (raw label stop : List Char) : Option (List Char) :=
  (findCI label raw).map fun i =>
    let rest := raw.drop (i + label.length)
    match findCI stop rest with
    | some j => rest.take j
    | none => rest

/-- Text after the first occurrence of `label`, `none` when absent. -/
def sectionToEnd (raw label : List Char) : Option (List Char) :=
  (findCI label raw).map fun i => raw.drop (i + label.length)

/-- The three channel-specific message bodies. -/
structure GeneratedAlerts where
  sms : List Char
  email : List Char
  voice : List Char

/-- `parseAlerts` from `DraftControls.tsx`. -/
def parseAlerts (raw : List Char) : GeneratedAlerts :=
  { sms :=
      match sectionUpTo raw smsLabel emailLabel with
      | some c => trimChars c
      | none => "Could not parse SMS message.".data
    email :=
      match sectionUpTo raw emailLabel voiceLabel with
      | some c => trimChars c
      | none => "Could not parse email message.".data
    voice :=
      match sectionToEnd raw voiceLabel with
      | some c => trimChars c
      | none => "Could not parse voice script.".data }

/-! ## AI Analysis Client (`src/services/grokService.ts`)

Each operation is `try { key check; fetch; status check; json; content check;
JSON.parse; coerce } catch { fallback }`.  The stages after the key check are
embedded as a `BackendResult` outcome; the coercion of the loosely-typed
decoded payload keeps the source's per-field `||` defaulting (JS falsy:
`undefined`, `""` and `0` are falsy, arrays — even empty — are truthy). -/
/-- Outcome of the fetch/parse chain of one backend call. -/
inductive BackendResult (α : Type) where
  | fetchFailed
  | notOk (status : Nat)
  | jsonFailed
  | noContent
  | badJson
  | parsed (payload : α)

/-- Every outcome except a parsed payload throws inside the `try` block. -/
def BackendResult.isFailure {α : Type} : BackendResult α → Bool
  | .parsed _ => false
  | _ => true

/-- JS truthiness of the `import.meta.env` credential (`!apiKey`). -/
def jsTruthyKey : Option String → Bool
  | none => false
  | some s => !s.isEmpty

/-- JS `x || d` for strings: `undefined` and `""` are falsy. -/
def jsOrString : Option String → String → String
  | none, d => d
  | some s, d => if s.isEmpty then d else s

/-- JS `x || d` for numbers: `undefined` and `0` are falsy. -/
def jsOrNum : Option Int → Int → Int
  | none, d => d
  | some n, d => if n = 0 then d else n

/-- JS `x || d` for arrays: only `undefined` is falsy (`[]` is truthy). -/
def jsOrList {α : Type} : Option (List α) → List α → List α
  | none, d => d
  | some l, _ => l

/-- The decoded JSON payload of an escalation reply, loosely typed. -/
structure ParsedPrediction where
  predictedSeverity : Option SeverityLevel := none
  escalationProbability : Option Int := none
  timeframe : Option String := none
  confidence : Option String := none
  reasoning : Option String := none
  earlyWarningIndicators : Option (List String) := none
  recommendedActions : Option (List String) := none
  historicalComparison : Option String := none

/-- `EscalationPrediction` output record. -/
structure EscalationPrediction where
  threatId : String
  currentSeverity : SeverityLevel
  predictedSeverity : SeverityLevel
  escalationProbability : Int
  timeframe : String
  confidence : String
  reasoning : String
  earlyWarningIndicators : List String
  recommendedActions : List String
  historicalComparison : Option String

/-- The fallback prediction returned from the `catch` branch. -/
def escalationFallback (threat : Threat) : EscalationPrediction :=
  { threatId := threat.id
    currentSeverity := threat.severity
    predictedSeverity := threat.severity
    escalationProbability := 0
    timeframe := "24 hours"
    confidence := "Low"
    reasoning := "Unable to generate prediction. Please check API configuration."
    earlyWarningIndicators := []
    recommendedActions := ["Monitor threat status closely", "Follow official guidance"]
    historicalComparison := none }

/-- `predictThreatEscalation`: the `try` body throws on a missing credential
and on every failed chain stage; the `catch` converts any of those into the
fallback record. -/
def predictThreatEscalation (apiKey : Option String)
    (backend : BackendResult ParsedPrediction) (threat : Threat) : EscalationPrediction :=
  if jsTruthyKey apiKey then
    match backend with
    | .parsed p =>
      { threatId := threat.id
        currentSeverity := threat.severity
        predictedSeverity := p.predictedSeverity.getD threat.severity
        escalationProbability := jsOrNum p.escalationProbability 0
        timeframe := jsOrString p.timeframe "24 hours"
        confidence := jsOrString p.confidence "Medium"
        reasoning := jsOrString p.reasoning "No reasoning provided."
        earlyWarningIndicators := jsOrList p.earlyWarningIndicators []
        recommendedActions := jsOrList p.recommendedActions []
        historicalComparison := p.historicalComparison }
    | _ => escalationFallback threat
  else escalationFallback threat

/-- One pairwise interaction in a compound-risk reply. -/
structure Interaction where
  threat1 : String
  threat2 : String
  interactionType : String
  combinedImpact : String

/-- `CompoundRiskAnalysis` output record. -/
structure CompoundRiskAnalysis where
  hasCompoundRisk : Bool
  riskLevel : String
  interactions : List Interaction
  cascadingEffects : List String
  overallSummary : String

/-- The decoded JSON payload of a compound-risk reply, loosely typed. -/
structure ParsedCompound where
  hasCompoundRisk : Option Bool := none
  riskLevel : Option String := none
  interactions : Option (List Interaction) := none
  cascadingEffects : Option (List String) := none
  overallSummary : Option String := none

/-- The short-circuit record for fewer than two threats. -/
def singleThreatCompound : CompoundRiskAnalysis :=
  { hasCompoundRisk := false
    riskLevel := "Low"
    interactions := []
    cascadingEffects := []
    overallSummary := "Single threat detected. No compound risk analysis available." }

/-- The fallback record returned from the `catch` branch. -/
def compoundFallback : CompoundRiskAnalysis :=
  { hasCompoundRisk := false
    riskLevel := "Low"
    interactions := []
    cascadingEffects := []
    overallSummary := "Unable to analyze compound risks. Monitoring individual threats." }

/-- `analyzeCompoundRisks`, paired with a flag recording whether the backend
was actually contacted (the `fetch` expression was reached). -/
def analyzeCompoundRisks (apiKey : Option String)
    (backend : BackendResult ParsedCompound) (threats : List Threat) :
    CompoundRiskAnalysis × Bool :=
  if threats.length < 2 then (singleThreatCompound, false)
  else if jsTruthyKey apiKey then
    match backend with
    | .parsed p =>
      ({ hasCompoundRisk := p.hasCompoundRisk.getD false
         riskLevel := jsOrString p.riskLevel "Low"
         interactions := jsOrList p.interactions []
         cascadingEffects := jsOrList p.cascadingEffects []
         overallSummary := jsOrString p.overallSummary "No compound risks detected." }, true)
    | _ => (compoundFallback, true)
  else (compoundFallback, false)

/-! ## Audience segmentation operation

`analyzeAudienceSegmentation` is exported by `grokService` and consumed by the
`AudienceSegmentation` component, but its definition is not among the source
files; it is modelled from the spec below. -/
/-- A ranked communication channel (effectiveness 0–100 plus a rationale). -/
structure CommunicationChannel where
  channel : String
  effectiveness : Int
  rationale : String

/-- Tailored message guidance for one segment. -/
structure MessageCustomization where
  tone : String
  keyPoints : List String
  actionItems : List String

/-- One named audience sub-population. -/
structure AudienceSegment where
  id : String
  name : String
  description : String
  estimatedSize : String
  priority : String
  vulnerabilityFactors : List String
  recommendedChannels : List CommunicationChannel
  messageCustomization : MessageCustomization

/-- Aggregate reach statistics shown by the component. -/
structure OverallReach where
  criticalSegments : Int
  totalAffectedPopulation : String

/-- `SegmentationAnalysis` output record. -/
structure SegmentationAnalysis where
  segments : List AudienceSegment
  overallReach : OverallReach

/-- Modelled from the spec: the segmentation fallback record — the definition
of `analyzeAudienceSegmentation` is absent from the sources — supplies exactly
two hard-coded segments, "General Public" and "First Responders", each with a
fixed channel ranking, so the UI has actionable content even fully offline. -/
def segmentationFallback : SegmentationAnalysis :=
  { segments :=
      [{ id := "general-public"
         name := "General Public"
         description := "Residents of the affected area."
         estimatedSize := "Majority of the affected population"
         priority := "High"
         vulnerabilityFactors := ["Limited advance notice"]
         recommendedChannels :=
           [{ channel := "SMS", effectiveness := 90,
              rationale := "Fast, near-universal reach." },
            { channel := "Social Media", effectiveness := 75,
              rationale := "Broad secondary reach." },
            { channel := "Radio", effectiveness := 60,
              rationale := "Reaches offline audiences." }]
         messageCustomization :=
           { tone := "Urgent"
             keyPoints := ["Stay informed", "Follow official guidance"]
             actionItems := ["Monitor official alerts", "Prepare to act"] } },
       { id := "first-responders"
         name := "First Responders"
         description := "Emergency personnel coordinating the response."
         estimatedSize := "Local response agencies"
         priority := "Critical"
         vulnerabilityFactors := ["Operational exposure"]
         recommendedChannels :=
           [{ channel := "Radio", effectiveness := 95,
              rationale := "Primary dispatch channel." },
            { channel := "Phone Call", effectiveness := 85,
              rationale := "Direct coordination." },
            { channel := "SMS", effectiveness := 70,
              rationale := "Backup channel." }]
         messageCustomization :=
           { tone := "Informational"
             keyPoints := ["Operational details"]
             actionItems := ["Coordinate the response"] } }]
    overallReach :=
      { criticalSegments := 1
        totalAffectedPopulation := "Population of the affected region" } }

/-- Modelled from the spec: `analyzeAudienceSegmentation(threat)` follows the
uniform operation shape — credential check, backend call, parse — and
substitutes `segmentationFallback` on any failure, never raising. -/
def analyzeAudienceSegmentation (apiKey : Option String)
    (backend : BackendResult SegmentationAnalysis) (_threat : Threat) :
    SegmentationAnalysis :=
  if jsTruthyKey apiKey then
    match backend with
    | .parsed p => p
    | _ => segmentationFallback
  else segmentationFallback

/-! ## Alert drafting (`src/components/DraftControls.tsx`, `handleDraft`) -/
/-- Outcome of the drafting backend call.  A non-2xx status carries
`errData?.error?.message`; a successful reply carries
`data.choices?.[0]?.message?.content` (absent content becomes `''`). -/
inductive DraftBackend where
  | fetchFailed (msg : String)
  | notOk (errMessage : Option String)
  | jsonFailed (msg : String)
  | ok (content : Option (List Char))

/-- Observable result of one `handleDraft` run: what `onAlertsGenerated`
received (if anything) and the error banner text (if any). -/
structure DraftResult where
  alerts : Option GeneratedAlerts
  error : Option String

/-- `handleDraft`: early-returns without a threat; throws (into its own
`catch`) on a missing or placeholder credential and on every backend failure,
surfacing `err.message` as the error banner; on success parses the raw reply
and hands the parsed record to `onAlertsGenerated`. -/
def handleDraft (threat : Option Threat) (apiKey : Option String)
    (backend : DraftBackend) : DraftResult :=
  match threat with
  | none => { alerts := none, error := none }
  | some _ =>
    if jsTruthyKey apiKey = false ∨ apiKey = some "your_grok_api_key_here" then
      { alerts := none, error := some "Please add your Groq API key to the .env file" }
    else
      match backend with
      | .fetchFailed msg => { alerts := none, error := some msg }
      | .notOk errMessage => { alerts := none, error := some (errMessage.getD "Groq API error") }
      | .jsonFailed msg => { alerts := none, error := some msg }
      | .ok content => { alerts := some (parseAlerts (content.getD [])), error := none }

/-- A concrete Threat for counterexamples and witnesses. -/
def sampleThreat : Threat :=
  { id := "urn:oid:2.49.0.1.840.0.1"
    source := .NWS
    type := "Tornado Warning"
    severity := .Severe
    headline := "Tornado Warning issued for Travis County"
    description := "A tornado has been spotted."
    areaDesc := "Travis County, TX"
    effective := .text "2025-01-01T00:00:00Z"
    expires := none }

/-! ## Orchestration state of the segmentation panel
(`AudienceSegmentation` component, bundled in `grokService.ts`)

The component's state machine is embedded as an explicit step function over
the hook state.  Its `useEffect` keyed on `threat?.id` clears `analysis`,
`error` and `expandedSegment` when the governing selection changes, and
`fetchAnalysis` awaits `analyzeAudienceSegmentation(threat)` and then calls
`setAnalysis(result)` unconditionally — the response is not tagged with the
selection it was requested for, so its arrival is modelled as an event
carrying the id of the threat the request was built from (the closure's
`threat`), and the step applies it regardless of the current selection. -/
/-- Hook state of the `AudienceSegmentation` component; `analysis` is tagged
with the id of the threat its request was built for, and `pending` records
the in-flight requests. -/
structure SegPanelState where
  currentThreat : Option String
  analysis : Option (String × SegmentationAnalysis)
  loading : Bool
  error : Option String
  expandedSegment : Option String
  pending : List String

/-- Initial hook state. -/
def SegPanelState.init : SegPanelState :=
  { currentThreat := none, analysis := none, loading := false
    error := none, expandedSegment := none, pending := [] }

/-- Externally visible events of the segmentation panel. -/
inductive SegEvent where
  | select (t : Option String)
  | clickGenerate
  | arriveOk (tid : String) (result : SegmentationAnalysis)
  | arriveErr (tid : String)

/-- One step of the component: `select` is the `useEffect` body (it only
re-runs when `threat?.id` changed), `clickGenerate` is the start of
`fetchAnalysis`, and the `arrive` events are the resumption after `await`
for the request built for threat `tid`. -/
def segStep (s : SegPanelState) : SegEvent → SegPanelState
  | .select t =>
    if t = s.currentThreat then s
    else
      match t with
      | none => { s with currentThreat := none, analysis := none, error := none }
      | some _ =>
        { s with currentThreat := t, analysis := none, error := none
                 expandedSegment := none }
  | .clickGenerate =>
    match s.currentThreat with
    | none => s
    | some tid =>
      { s with loading := true, error := none, pending := s.pending ++ [tid] }
  | .arriveOk tid result =>
    if tid ∈ s.pending then
      { s with analysis := some (tid, result), expandedSegment := none
               loading := false, pending := s.pending.erase tid }
    else s
  | .arriveErr tid =>
    if tid ∈ s.pending then
      { s with error := some "Failed to analyze audience segments."
               loading := false, pending := s.pending.erase tid }
    else s

/-- Run the panel from its initial state over an event trace. -/
def segRun (events : List SegEvent) : SegPanelState :=
  events.foldl segStep .init

theorem threatLe_iff_specLe (pd : String → Int) (a b : Threat) :
    threatLe pd a b ↔ specLe pd a b := by
  unfold threatLe threatCmp specLe
  split_ifs with h <;> omega

theorem threatLe_of_key_eq (pd : String → Int) {a b : Threat}
    (h : threatKey pd a = threatKey pd b) : threatLe pd a b := by
  unfold threatKey at h
  unfold threatLe threatCmp
  split_ifs with hne
  · exact absurd (congrArg Prod.fst h) hne
  · have := congrArg Prod.snd h
    simp only at this
    omega

/-! Stability of `List.insertionSort`, phrased through `filter`: inserting an
element that precedes (under `r`) every element of its own `p`-class puts it in
front of that class, so sorting never reorders a class of mutually-`r`-related
elements. -/
theorem filter_orderedInsert_pos {α : Type} (r : α → α → Prop) [DecidableRel r]
    (p : α → Bool) (a : α) (hpa : p a = true) :
    ∀ l : List α, (∀ b ∈ l, p b = true → r a b) →
      (List.orderedInsert r a l).filter p = a :: l.filter p
  | [], _ => by simp [hpa]
  | b :: l, h => by
    by_cases hr : r a b
    · simp [List.orderedInsert, hr, hpa]
    · have hpb : p b = false := by
        cases hb : p b
        · rfl
        · exact absurd (h b (by simp) hb) hr
      have ih := filter_orderedInsert_pos r p a hpa l fun c hc => h c (by simp [hc])
      simp [List.orderedInsert, hr, hpb, ih]

theorem filter_orderedInsert_neg {α : Type} (r : α → α → Prop) [DecidableRel r]
    (p : α → Bool) (a : α) (hpa : p a = false) :
    ∀ l : List α, (List.orderedInsert r a l).filter p = l.filter p
  | [] => by simp [hpa]
  | b :: l => by
    by_cases hr : r a b
    · simp [List.orderedInsert, hr, hpa]
    · have ih := filter_orderedInsert_neg r p a hpa l
      by_cases hpb : p b = true <;> simp [List.orderedInsert, hr, hpb, ih]

theorem filter_insertionSort {α : Type} (r : α → α → Prop) [DecidableRel r]
    (p : α → Bool) (hcl : ∀ a b, p a = true → p b = true → r a b) :
    ∀ l : List α, (List.insertionSort r l).filter p = l.filter p
  | [] => rfl
  | a :: l => by
    have ih := filter_insertionSort r p hcl l
    cases hpa : p a
    · rw [List.insertionSort, filter_orderedInsert_neg r p a hpa, ih,
        List.filter_cons_of_neg (by simp [hpa])]
    · rw [List.insertionSort,
        filter_orderedInsert_pos r p a hpa _ (fun b _ hb => hcl a b hpa hb), ih,
        List.filter_cons_of_pos hpa]

/-- C1: for every pair of adapter result lists, the aggregator's refresh
concatenates them and stable-sorts the combined list by the compound key —
severity rank ascending (Extreme=0, Severe=1, Moderate=2, Minor=3, Unknown=4),
then, only on rank ties, effective epoch descending — where numeric and
parsable-text `effective` values normalize to the same comparable epoch
(`effTime`), and the sort is stable (it never reorders threats whose compound
keys agree). -/
theorem refreshThreats_sorted_stable (pd : String → Int) (nws usgs : List Threat) :
    (refreshThreats pd nws usgs).Perm (nws ++ usgs) ∧
    List.Sorted (specLe pd) (refreshThreats pd nws usgs) ∧
    (∀ k : Int × Int,
      (refreshThreats pd nws usgs).filter (fun t => decide (threatKey pd t = k)) =
        (nws ++ usgs).filter (fun t => decide (threatKey pd t = k))) ∧
    (∀ n : Int, effTime pd (.num n) = n) ∧
    (∀ s : String, effTime pd (.text s) = pd s) ∧
    severityRank .Extreme = 0 ∧ severityRank .Severe = 1 ∧
    severityRank .Moderate = 2 ∧ severityRank .Minor = 3 ∧
    severityRank .Unknown = 4 := by
  refine ⟨List.perm_insertionSort _ _, ?_, ?_, fun n => rfl, fun s => rfl,
    rfl, rfl, rfl, rfl, rfl⟩
  · exact (List.sorted_insertionSort (threatLe pd) _).imp
      fun h => (threatLe_iff_specLe pd _ _).mp h
  · intro k
    exact filter_insertionSort (threatLe pd) _
      (fun a b ha hb => threatLe_of_key_eq pd
        ((of_decide_eq_true ha).trans (of_decide_eq_true hb).symm))
      (nws ++ usgs)

/-- C6: `magnitudeToSeverity` is total and monotonic — every magnitude falls in
exactly one band (each severity value is returned precisely on its band:
m ≥ 7 Extreme, 5.5 ≤ m < 7 Severe, 4 ≤ m < 5.5 Moderate, 2.5 ≤ m < 4 Minor,
m < 2.5 Unknown), and a larger magnitude never maps to a strictly less severe
level (its rank never increases). -/
theorem magnitudeToSeverity_total_monotone :
    (∀ m : ℚ,
      (magnitudeToSeverity m = .Extreme ↔ 7 ≤ m) ∧
      (magnitudeToSeverity m = .Severe ↔ 11/2 ≤ m ∧ m < 7) ∧
      (magnitudeToSeverity m = .Moderate ↔ 4 ≤ m ∧ m < 11/2) ∧
      (magnitudeToSeverity m = .Minor ↔ 5/2 ≤ m ∧ m < 4) ∧
      (magnitudeToSeverity m = .Unknown ↔ m < 5/2)) ∧
    (∀ m m' : ℚ, m ≤ m' →
      severityRank (magnitudeToSeverity m') ≤ severityRank (magnitudeToSeverity m)) := by
  constructor
  · intro m
    unfold magnitudeToSeverity
    split_ifs with h1 h2 h3 h4 <;>
      refine ⟨?_, ?_, ?_, ?_, ?_⟩ <;> simp_all <;>
      first
        | linarith
        | (intro h5; linarith)
  · intro m m' h
    unfold magnitudeToSeverity
    split_ifs <;> simp [severityRank] <;> linarith

/-- Witness for C6: the monotonicity part applied at the concrete pair 3 ≤ 5,
and the band characterization applied at 6 (a Severe magnitude). -/
theorem magnitudeToSeverity_total_monotone_witness :
    ((3 : ℚ) ≤ 5 ∧
      severityRank (magnitudeToSeverity 5) ≤ severityRank (magnitudeToSeverity 3)) ∧
    (magnitudeToSeverity 6 = .Severe ↔ (11 : ℚ)/2 ≤ 6 ∧ (6 : ℚ) < 7) :=
  ⟨⟨by norm_num, magnitudeToSeverity_total_monotone.2 3 5 (by norm_num)⟩,
    ((magnitudeToSeverity_total_monotone.1 6).2.1)⟩

theorem mapFeatures_ok_length (env : AdapterEnv) :
    ∀ (i : Nat) (fs : List NWSFeature) (ts : List Threat),
      mapFeatures env i fs = .ok ts → ts.length = fs.length
  | _, [], _, h => by
    simp only [mapFeatures] at h
    cases h
    rfl
  | i, f :: fs, ts, h => by
    simp only [mapFeatures] at h
    cases hf : mapFeature env i f with
    | error e => rw [hf] at h; cases h
    | ok t =>
      rw [hf] at h
      cases hfs : mapFeatures env (i + 1) fs with
      | error e => rw [hfs] at h; cases h
      | ok ts' =>
        rw [hfs] at h
        cases h
        simp [mapFeatures_ok_length env (i + 1) fs ts' hfs]

/-- C5: the weather-feed adapter never raises to its caller — its entire body
is a single `try`/`catch` returning a plain list — any network/parse failure
yields the empty sequence, and every successful response yields at most ten
Threats. -/
theorem fetchNWSAlerts_safe (env : AdapterEnv) (resp : FetchOutcome NWSData) :
    (fetchNWSAlerts env resp).length ≤ 10 ∧
    fetchNWSAlerts env .failure = ([] : List Threat) := by
  refine ⟨?_, rfl⟩
  cases resp with
  | failure => simp [fetchNWSAlerts]
  | success data =>
    simp only [fetchNWSAlerts]
    cases h : mapFeatures env 0 ((data.features.getD []).take 10) with
    | error e => simp
    | ok ts =>
      have hlen := mapFeatures_ok_length env 0 _ ts h
      have hle : ((data.features.getD []).take 10).length ≤ 10 := by
        simp [List.length_take]
      show ts.length ≤ 10
      omega

/-- C8: the coordinate extractor returns, for a Point the point itself, for a
Polygon the first vertex of the first (exterior) ring, for a MultiPolygon the
first vertex of the first ring of the first polygon — always flipping the
GeoJSON `(longitude, latitude)` order to `(latitude, longitude)` — and returns
no coordinates for a missing geometry or any other geometry type. -/
theorem getCoordinatesFromGeometry_spec :
    (∀ (lng lat : Coord) (restCoords : List Coord),
      getCoordinatesFromGeometry
        (some ⟨some "Point", some (.arr (lng :: lat :: restCoords))⟩) =
        some (lat, lng)) ∧
    (∀ (lng lat : Coord) (restCoords restPts restRings : List Coord),
      getCoordinatesFromGeometry
        (some ⟨some "Polygon",
          some (.arr (.arr (.arr (lng :: lat :: restCoords) :: restPts) :: restRings))⟩) =
        some (lat, lng)) ∧
    (∀ (lng lat : Coord) (restCoords restPts restRings restPolys : List Coord),
      getCoordinatesFromGeometry
        (some ⟨some "MultiPolygon",
          some (.arr (.arr (.arr (.arr (lng :: lat :: restCoords) :: restPts)
            :: restRings) :: restPolys))⟩) =
        some (lat, lng)) ∧
    getCoordinatesFromGeometry none = none ∧
    (∀ c : Option Coord, getCoordinatesFromGeometry (some ⟨none, c⟩) = none) ∧
    (∀ (ty : String) (c : Option Coord),
      ty ≠ "Point" → ty ≠ "Polygon" → ty ≠ "MultiPolygon" →
      getCoordinatesFromGeometry (some ⟨some ty, c⟩) = none) := by
  refine ⟨fun lng lat r => rfl, fun lng lat r1 r2 r3 => rfl,
    fun lng lat r1 r2 r3 r4 => rfl, rfl, ?_, ?_⟩
  · intro c
    cases c with
    | none => rfl
    | some cv =>
      simp only [getCoordinatesFromGeometry]
      split <;> rfl
  · intro ty c h1 h2 h3
    cases c with
    | none => rfl
    | some cv =>
      simp only [getCoordinatesFromGeometry]
      split
      · split <;> simp_all
      · rfl

/-- Witness for C8: the non-listed geometry type case applied at the concrete
type `"LineString"` with a concrete coordinate array. -/
theorem getCoordinatesFromGeometry_spec_witness :
    "LineString" ≠ "Point" ∧ "LineString" ≠ "Polygon" ∧ "LineString" ≠ "MultiPolygon" ∧
    getCoordinatesFromGeometry
      (some ⟨some "LineString", some (.arr [.num 1, .num 2])⟩) = none :=
  ⟨by decide, by decide, by decide,
    getCoordinatesFromGeometry_spec.2.2.2.2.2 "LineString"
      (some (.arr [.num 1, .num 2])) (by decide) (by decide) (by decide)⟩

/-- C9: mapping the minimal feature yields a Threat with every required field
populated by its documented default — synthesized id, type and headline
"Weather Alert", placeholder description and area, severity Unknown,
current-time effective value and `null` expires. -/
theorem fetchNWSAlerts_minimal_defaults (env : AdapterEnv) :
    fetchNWSAlerts env (.success { features := some [minimalFeature] }) =
      [{ id := env.genId 0
         source := .NWS
         type := "Weather Alert"
         severity := .Unknown
         headline := "Weather Alert"
         description := "No description available."
         areaDesc := "Unknown area"
         effective := .text env.nowISO
         expires := none
         coordinates := none
         magnitude := none }] := rfl

/-- C4: with fewer than two threats, `analyzeCompoundRisks` short-circuits to
the deterministic no-compound-risk record — `hasCompoundRisk` false, risk
level "Low", empty interactions and cascading effects, the fixed single-threat
summary — and never reaches the backend call. -/
theorem analyzeCompoundRisks_short_circuit (apiKey : Option String)
    (backend : BackendResult ParsedCompound) (threats : List Threat)
    (h : threats.length < 2) :
    analyzeCompoundRisks apiKey backend threats = (singleThreatCompound, false) ∧
    singleThreatCompound.hasCompoundRisk = false ∧
    singleThreatCompound.riskLevel = "Low" ∧
    singleThreatCompound.interactions = [] ∧
    singleThreatCompound.cascadingEffects = [] ∧
    singleThreatCompound.overallSummary =
      "Single threat detected. No compound risk analysis available." := by
  unfold analyzeCompoundRisks
  rw [if_pos h]
  exact ⟨rfl, rfl, rfl, rfl, rfl, rfl⟩

/-- Witness for C4: the short-circuit applied to the empty threat list with a
live credential and a would-be-successful backend. -/
theorem analyzeCompoundRisks_short_circuit_witness :
    ([] : List Threat).length < 2 ∧
    analyzeCompoundRisks (some "gsk_live") (.parsed {}) [] = (singleThreatCompound, false) :=
  ⟨by decide,
    (analyzeCompoundRisks_short_circuit (some "gsk_live") (.parsed {}) [] (by decide)).1⟩

/-- C10: for every credential state and backend behavior, the prediction's
identity-binding fields come from the input threat — `threatId = threat.id`
and `currentSeverity = threat.severity` on the success path and the fallback
path alike. -/
theorem predictThreatEscalation_identity (apiKey : Option String)
    (backend : BackendResult ParsedPrediction) (threat : Threat) :
    (predictThreatEscalation apiKey backend threat).threatId = threat.id ∧
    (predictThreatEscalation apiKey backend threat).currentSeverity = threat.severity := by
  unfold predictThreatEscalation escalationFallback
  split
  · cases backend <;> exact ⟨rfl, rfl⟩
  · exact ⟨rfl, rfl⟩

/-- C3 counterexample: with the backend credential absent, the drafting
operation (`handleDraft`) does not return any fully-populated fallback
record — no `GeneratedAlerts` value is produced at all; the run ends with
only an error banner — refuting the claim that every one of the four
operations returns its documented fallback record. -/
theorem handleDraft_missing_key_no_record :
    (handleDraft (some sampleThreat) none
        (.ok (some "SMS: a EMAIL: b VOICE: c".data))).alerts = none ∧
    (handleDraft (some sampleThreat) none
        (.ok (some "SMS: a EMAIL: b VOICE: c".data))).error =
      some "Please add your Groq API key to the .env file" :=
  ⟨rfl, rfl⟩

/-- C3 (amended): none of the four AI operations raises to its caller on a
missing credential or any failure of the call/parse chain.  Escalation
prediction, compound-risk analysis and audience segmentation return their
documented fully-populated fallback records (escalation: predicted severity =
current severity, probability 0, confidence Low); drafting instead surfaces
the failure as an error message and produces no alerts record. -/
theorem aiAnalysis_failure_fallbacks :
    (∀ (apiKey : Option String) (b : BackendResult ParsedPrediction) (t : Threat),
      jsTruthyKey apiKey = false ∨ b.isFailure = true →
        predictThreatEscalation apiKey b t = escalationFallback t) ∧
    (∀ (apiKey : Option String) (b : BackendResult ParsedCompound) (ts : List Threat),
      2 ≤ ts.length → (jsTruthyKey apiKey = false ∨ b.isFailure = true) →
        (analyzeCompoundRisks apiKey b ts).1 = compoundFallback) ∧
    (∀ (apiKey : Option String) (b : BackendResult SegmentationAnalysis) (t : Threat),
      jsTruthyKey apiKey = false ∨ b.isFailure = true →
        analyzeAudienceSegmentation apiKey b t = segmentationFallback) ∧
    (∀ (t : Threat) (b : DraftBackend),
      handleDraft (some t) none b =
        { alerts := none, error := some "Please add your Groq API key to the .env file" }) ∧
    (∀ (t : Threat) (key msg : String), key ≠ "" → key ≠ "your_grok_api_key_here" →
      handleDraft (some t) (some key) (.fetchFailed msg) =
        { alerts := none, error := some msg }) ∧
    (∀ t : Threat,
      (escalationFallback t).predictedSeverity = t.severity ∧
      (escalationFallback t).escalationProbability = 0 ∧
      (escalationFallback t).confidence = "Low") ∧
    segmentationFallback.segments.map AudienceSegment.name =
      ["General Public", "First Responders"] := by
  refine ⟨?_, ?_, ?_, ?_, ?_, fun t => ⟨rfl, rfl, rfl⟩, rfl⟩
  · intro apiKey b t h
    unfold predictThreatEscalation
    rcases h with h | h
    · rw [if_neg (by simp [h])]
    · split
      · cases b with
        | parsed p => simp [BackendResult.isFailure] at h
        | fetchFailed => rfl
        | notOk s => rfl
        | jsonFailed => rfl
        | noContent => rfl
        | badJson => rfl
      · rfl
  · intro apiKey b ts hlen h
    unfold analyzeCompoundRisks
    rw [if_neg (by omega)]
    rcases h with h | h
    · rw [if_neg (by simp [h])]
    · split
      · cases b with
        | parsed p => simp [BackendResult.isFailure] at h
        | fetchFailed => rfl
        | notOk s => rfl
        | jsonFailed => rfl
        | noContent => rfl
        | badJson => rfl
      · rfl
  · intro apiKey b t h
    unfold analyzeAudienceSegmentation
    rcases h with h | h
    · rw [if_neg (by simp [h])]
    · split
      · cases b with
        | parsed p => simp [BackendResult.isFailure] at h
        | fetchFailed => rfl
        | notOk s => rfl
        | jsonFailed => rfl
        | noContent => rfl
        | badJson => rfl
      · rfl
  · intro t b
    simp only [handleDraft]
    exact if_pos (Or.inl rfl)
  · intro t key msg hne hph
    have hcond : ¬(jsTruthyKey (some key) = false ∨
        (some key : Option String) = some "your_grok_api_key_here") := by
      rintro (h | h)
      · rw [jsTruthyKey, Bool.not_eq_false'] at h
        exact hne ((String.isEmpty_iff key).mp h)
      · exact hph (Option.some.inj h)
    simp only [handleDraft]
    rw [if_neg hcond]

/-- Witness for C3 (amended): each hypothesis-bearing conjunct applied at a
concrete input — absent credential for escalation, a two-threat list with a
non-2xx status for compound risk, a network failure for segmentation, and a
live key with a fetch failure for drafting. -/
theorem aiAnalysis_failure_fallbacks_witness :
    (jsTruthyKey none = false ∨
      (BackendResult.isFailure (α := ParsedPrediction) .fetchFailed) = true) ∧
    predictThreatEscalation none .fetchFailed sampleThreat =
      escalationFallback sampleThreat ∧
    2 ≤ [sampleThreat, sampleThreat].length ∧
    (analyzeCompoundRisks (some "gsk_live") (.notOk 500) [sampleThreat, sampleThreat]).1 =
      compoundFallback ∧
    analyzeAudienceSegmentation (some "gsk_live") .fetchFailed sampleThreat =
      segmentationFallback ∧
    handleDraft (some sampleThreat) (some "gsk_live") (.fetchFailed "Failed to fetch") =
      { alerts := none, error := some "Failed to fetch" } :=
  ⟨Or.inl rfl,
    aiAnalysis_failure_fallbacks.1 none .fetchFailed sampleThreat (Or.inl rfl),
    by decide,
    aiAnalysis_failure_fallbacks.2.1 (some "gsk_live") (.notOk 500)
      [sampleThreat, sampleThreat] (by decide) (Or.inr rfl),
    aiAnalysis_failure_fallbacks.2.2.1 (some "gsk_live") .fetchFailed sampleThreat
      (Or.inr rfl),
    aiAnalysis_failure_fallbacks.2.2.2.2.1 sampleThreat "gsk_live" "Failed to fetch"
      (by decide) (by decide)⟩

/-- C2 (failing execution): selecting threat B while a segmentation request
for threat A is still in flight does reset the state to Idle, but when the
stale response arrives it is applied unconditionally — the final state shows
threat A's analysis against selection B instead of remaining Idle. -/
theorem segmentationPanel_stale_response_applied :
    (segRun [.select (some "A")]).analysis = none ∧
    (segRun [.select (some "A"), .clickGenerate, .select (some "B")]).analysis = none ∧
    segRun [.select (some "A"), .clickGenerate, .select (some "B"),
        .arriveOk "A" segmentationFallback] =
      { currentThreat := some "B"
        analysis := some ("A", segmentationFallback)
        loading := false
        error := none
        expandedSegment := none
        pending := [] } :=
  ⟨rfl, rfl, rfl⟩

/-! ### Facts about case-insensitive search, towards `parseAlerts` -/
theorem toNat_ofNat_valid {n : Nat} (h : n < 55296) : (Char.ofNat n).toNat = n := by
  rw [Char.ofNat, dif_pos (Or.inl h)]
  rfl

/-- Lower-casing maps basic latin letters into letters, so only `':'` itself
lower-cases to `':'`. -/
theorem toLower_eq_colon {c : Char} (h : c.toLower = ':') : c = ':' := by
  simp only [Char.toLower] at h
  split at h
  · exfalso
    rename_i hc
    have h2 := congrArg Char.toNat h
    rw [toNat_ofNat_valid (by omega)] at h2
    have h3 : (':' : Char).toNat = 58 := by decide
    omega
  · exact h

theorem ciEq_refl (c : Char) : ciEq c c = true := by simp [ciEq]

theorem matchesAt_append (p t : List Char) : matchesAt p (p ++ t) = true := by
  induction p with
  | nil => rfl
  | cons c cs ih => simp [matchesAt, ciEq_refl, ih]

theorem ciEq_colon {c : Char} (h : ciEq ':' c = true) : c = ':' := by
  simp only [ciEq, beq_iff_eq] at h
  have h0 : (':' : Char).toLower = ':' := by decide
  rw [h0] at h
  exact toLower_eq_colon h.symm

/-- A case-insensitive match transports the pattern's colons into the text. -/
theorem matchesAt_get_colon {p : List Char} :
    ∀ {l : List Char}, matchesAt p l = true →
      ∀ k : Nat, p.get? k = some ':' → l.get? k = some ':' := by
  induction p with
  | nil => intro l h k hk; simp [List.get?] at hk
  | cons p0 ps ih =>
    intro l h k hk
    cases l with
    | nil => simp [matchesAt] at h
    | cons c cs =>
      simp only [matchesAt, Bool.and_eq_true] at h
      cases k with
      | zero =>
        simp only [List.get?] at hk ⊢
        cases hk
        exact congrArg some (ciEq_colon h.1)
      | succ k => exact ih h.2 k hk

theorem findCI_eq_some {p : List Char} :
    ∀ {l : List Char} {n : Nat},
      matchesAt p (l.drop n) = true → (∀ q, q < n → matchesAt p (l.drop q) = false) →
      findCI p l = some n := by
  intro l
  induction l with
  | nil =>
    intro n h1 h2
    cases n with
    | zero => rw [List.drop_zero] at h1; simp [findCI, h1]
    | succ n =>
      have h0 := h2 0 (Nat.succ_pos _)
      rw [List.drop_zero] at h0
      rw [List.drop_nil] at h1
      rw [h0] at h1
      cases h1
  | cons c cs ih =>
    intro n h1 h2
    cases n with
    | zero =>
      rw [List.drop_zero] at h1
      simp [findCI, h1]
    | succ n =>
      have h0 : matchesAt p (c :: cs) = false := by
        have := h2 0 (Nat.succ_pos _)
        rwa [List.drop_zero] at this
      rw [findCI, if_neg (by simp [h0])]
      have ih' := ih (n := n) (by simpa using h1)
        (fun q hq => by simpa using h2 (q + 1) (by omega))
      rw [ih']
      rfl

theorem findCI_eq_none {p : List Char} :
    ∀ {l : List Char}, (∀ q, matchesAt p (l.drop q) = false) → findCI p l = none := by
  intro l
  induction l with
  | nil =>
    intro h
    have h0 := h 0
    rw [List.drop_zero] at h0
    simp [findCI, h0]
  | cons c cs ih =>
    intro h
    have h0 := h 0
    rw [List.drop_zero] at h0
    rw [findCI, if_neg (by simp [h0])]
    rw [ih (fun q => by simpa using h (q + 1))]
    rfl

theorem get?_drop' (l : List Char) (n m : Nat) : (l.drop n).get? m = l.get? (n + m) := by
  simp [List.get?_eq_getElem?, List.getElem?_drop]

/-- A pattern with `':'` at offset `k` cannot match where the text has no
colon at the corresponding position. -/
theorem no_colon_no_match {p l : List Char} {k : Nat} (hk : p.get? k = some ':')
    (q : Nat) (hcol : l.get? (q + k) ≠ some ':') : matchesAt p (l.drop q) = false := by
  cases hM : matchesAt p (l.drop q)
  · rfl
  · exfalso
    apply hcol
    have h := matchesAt_get_colon hM k hk
    rwa [get?_drop'] at h

/-- C7: on a reply made of an `SMS:` section followed by an `EMAIL:` section
and no `VOICE:` label, the parser extracts `sms` and `email` from their
sections (trimmed) while `voice` falls back to "Could not parse voice
script."; and in general each of the three sections yields its explanatory
placeholder exactly when its label is not found (case-insensitively) in the
reply, the label-present cases being witnessed by the extraction above. -/
theorem parseAlerts_sections (s e : List Char) (hs : ':' ∉ s) (he : ':' ∉ e) :
    parseAlerts (smsLabel ++ (s ++ (emailLabel ++ e))) =
      { sms := trimChars s, email := trimChars e
        voice := "Could not parse voice script.".data } ∧
    (∀ raw, findCI smsLabel raw = none →
      (parseAlerts raw).sms = "Could not parse SMS message.".data) ∧
    (∀ raw, findCI emailLabel raw = none →
      (parseAlerts raw).email = "Could not parse email message.".data) ∧
    (∀ raw, findCI voiceLabel raw = none →
      (parseAlerts raw).voice = "Could not parse voice script.".data) := by
  refine ⟨?_, ?_, ?_, ?_⟩
  case refine_2 =>
    intro raw h
    unfold parseAlerts sectionUpTo
    rw [h]
    rfl
  case refine_3 =>
    intro raw h
    unfold parseAlerts sectionUpTo
    rw [h]
    rfl
  case refine_4 =>
    intro raw h
    unfold parseAlerts sectionToEnd
    rw [h]
    rfl
  set Y : List Char := emailLabel ++ e with hY
  set X : List Char := s ++ Y with hX
  set full : List Char := smsLabel ++ X with hfull
  have hslen : smsLabel.length = 4 := rfl
  have helen : emailLabel.length = 6 := rfl
  have hgeX : ∀ j, j ≠ s.length + 5 → X.get? j ≠ some ':' := by
    intro j hj5 hj
    by_cases hlt : j < s.length
    · rw [hX, List.get?_append hlt] at hj
      exact hs (List.get?_mem hj)
    · rw [hX, List.get?_append_right (by omega)] at hj
      by_cases h6 : j - s.length < 6
      · rw [hY, List.get?_append (show j - s.length < emailLabel.length from h6)] at hj
        have h5 : ∀ i, i < 6 → i ≠ 5 → emailLabel.get? i ≠ some ':' := by decide
        exact h5 _ h6 (by omega) hj
      · rw [hY, List.get?_append_right (show emailLabel.length ≤ j - s.length by omega)] at hj
        exact he (List.get?_mem hj)
  have hgeF : ∀ j, j ≠ 3 → j ≠ s.length + 9 → full.get? j ≠ some ':' := by
    intro j hj3 hj9 hj
    by_cases h4 : j < 4
    · rw [hfull, List.get?_append (show j < smsLabel.length from h4)] at hj
      have h3 : ∀ i, i < 4 → i ≠ 3 → smsLabel.get? i ≠ some ':' := by decide
      exact h3 _ h4 hj3 hj
    · rw [hfull, List.get?_append_right (show smsLabel.length ≤ j by omega)] at hj
      rw [hslen] at hj
      exact hgeX (j - 4) (by omega) hj
  have hS : findCI smsLabel full = some 0 := by
    apply findCI_eq_some
    · rw [List.drop_zero, hfull]
      exact matchesAt_append _ _
    · intro q hq
      omega
  have hdrop4 : full.drop (0 + smsLabel.length) = X := by
    rw [Nat.zero_add, hfull, List.drop_left]
  have hE : findCI emailLabel X = some s.length := by
    apply findCI_eq_some
    · rw [hX, List.drop_left]
      exact matchesAt_append _ _
    · intro q hq
      apply no_colon_no_match (show emailLabel.get? 5 = some ':' from by decide)
      exact hgeX (q + 5) (by omega)
  have hEF : findCI emailLabel full = some (4 + s.length) := by
    apply findCI_eq_some
    · rw [show full.drop (4 + s.length) = Y by
        rw [← List.drop_drop, hfull, ← hslen, List.drop_left, hX, List.drop_left]]
      exact matchesAt_append _ _
    · intro q hq
      apply no_colon_no_match (show emailLabel.get? 5 = some ':' from by decide)
      exact hgeF (q + 5) (by omega) (by omega)
  have hdropE : full.drop (4 + s.length + emailLabel.length) = e := by
    rw [helen, ← List.drop_drop, show full.drop (4 + s.length) = Y by
      rw [← List.drop_drop, hfull, ← hslen, List.drop_left, hX, List.drop_left]]
    rw [hY, ← helen, List.drop_left]
  have hVe : findCI voiceLabel e = none := by
    apply findCI_eq_none
    intro q
    apply no_colon_no_match (show voiceLabel.get? 5 = some ':' from by decide)
    intro hj
    exact he (List.get?_mem hj)
  have hVF : findCI voiceLabel full = none := by
    apply findCI_eq_none
    intro q
    by_cases hq : q = s.length + 4
    · subst hq
      rw [show full.drop (s.length + 4) = Y by
        rw [show s.length + 4 = 4 + s.length from by omega, ← List.drop_drop, hfull,
          ← hslen, List.drop_left, hX, List.drop_left]]
      rfl
    · apply no_colon_no_match (show voiceLabel.get? 5 = some ':' from by decide)
      exact hgeF (q + 5) (by omega) (by omega)
  have hsmsSec : sectionUpTo full smsLabel emailLabel = some s := by
    unfold sectionUpTo
    rw [hS]
    show some (match findCI emailLabel (full.drop (0 + smsLabel.length)) with
      | some j => (full.drop (0 + smsLabel.length)).take j
      | none => full.drop (0 + smsLabel.length)) = some s
    rw [hdrop4, hE]
    show some (X.take s.length) = some s
    rw [hX, List.take_left]
  have hemailSec : sectionUpTo full emailLabel voiceLabel = some e := by
    unfold sectionUpTo
    rw [hEF]
    show some (match findCI voiceLabel (full.drop (4 + s.length + emailLabel.length)) with
      | some j => (full.drop (4 + s.length + emailLabel.length)).take j
      | none => full.drop (4 + s.length + emailLabel.length)) = some e
    rw [hdropE, hVe]
  have hvoiceSec : sectionToEnd full voiceLabel = none := by
    unfold sectionToEnd
    rw [hVF]
    rfl
  show parseAlerts full = _
  unfold parseAlerts
  rw [hsmsSec, hemailSec, hvoiceSec]

/-- Witness for C7: a concrete colon-free SMS body and email body — the reply
has `SMS:` and `EMAIL:` labels but no `VOICE:` label — parsed into the trimmed
section texts with the voice placeholder. -/
theorem parseAlerts_sections_witness :
    (':' ∉ " Take cover now. ".data) ∧ (':' ∉ " Shelter immediately. ".data) ∧
    parseAlerts (smsLabel ++ (" Take cover now. ".data ++
        (emailLabel ++ " Shelter immediately. ".data))) =
      { sms := "Take cover now.".data
        email := "Shelter immediately.".data
        voice := "Could not parse voice script.".data } := by
  refine ⟨by decide, by decide, ?_⟩
  rw [(parseAlerts_sections " Take cover now. ".data " Shelter immediately. ".data
    (by decide) (by decide)).1]
  rfl

end SentinelAI

